import Mathlib

/-!
Shallow embedding of GammaRay's UI state manager
(src/ui/uistatemanager.cpp) and proofs about its layout-persistence
behaviour.

Modelling conventions:
* QSettings (the persisted key-value store) is an association list from
  key strings to byte blobs; QByteArray blobs are `List Int` and a
  missing key reads as the empty blob, matching
  `value(key).toByteArray()` on an absent key.
* The opaque QByteArray produced by QSplitter::saveState /
  QHeaderView::saveState and consumed by restoreState is kept as an
  abstract `stateBlob` field on the widget; `restoreState b` installs
  `b` verbatim.
* C++ `int` division truncates toward zero, so `Int.div` is used for
  every division taken from the source.
* `Q_ASSERT` aborts in debug builds; a function whose source contains a
  reachable assertion returns `Option`, with `none` for the assertion
  firing.
-/

namespace GammaRay

/-- Persisted key-value store (QSettings inside the current group):
an association list from key to byte blob. -/
def Store := List (String × List Int)

instance : DecidableEq Store := by
  unfold Store
  infer_instance

/-- QSettings::value(key).toByteArray(): the stored blob, or the empty
blob when the key is absent. -/
def Store.value (s : Store) (k : String) : List Int :=
  match s with
  | [] => []
  | (k2, v) :: rest => if k2 = k then v else Store.value rest k

/-- QSettings::setValue(key, blob): overwrite the entry for the key, or
append it. -/
def Store.setValue (s : Store) (k : String) (v : List Int) : Store :=
  match s with
  | [] => [(k, v)]
  | (k2, v2) :: rest =>
    if k2 = k then (k, v) :: rest else (k2, v2) :: Store.setValue rest k v

/-- Entry of a UISizeVector (uistatemanager.h): a registered default
size is either an absolute pixel count (QVariant::Int) or a
percent string "n%" (QVariant::String).  The percent constructor
carries the integer that percentToInt (uistatemanager.cpp:259-262)
parses out of the string. -/
inductive UISize where
  | px (n : Int)
  | percent (n : Int)
deriving DecidableEq, Repr

/-- UISizeVector: ordered list of default size entries. -/
def UISizeVector := List UISize

instance : DecidableEq UISizeVector := by
  unfold UISizeVector
  infer_instance

/-- Registered default sizes per widget object name
(m_defaultSplitterSizes / m_defaultHeaderSizes, a QHash). -/
def UIDefaults := List (String × List UISize)

instance : DecidableEq UIDefaults := by
  unfold UIDefaults
  infer_instance

/-- QHash::value(name): the registered vector, or the empty vector when
the name is absent. -/
def lookupSizes (d : UIDefaults) (name : String) : List UISize :=
  match d with
  | [] => []
  | (n, v) :: rest => if n = name then v else lookupSizes rest name

/-- Qt::Orientation of a splitter or header. -/
inductive Orientation where
  | horizontal
  | vertical
deriving DecidableEq, Repr

/-- QSplitter as the manager sees it: object name, orientation, widget
extent, handle width, current pane sizes, the opaque serialized state
blob, and the "customized" dynamic property (false when never set,
matching property("customized").toBool() on an unset property). -/
structure Splitter where
  objectName : String
  orientation : Orientation
  width : Int
  height : Int
  handleWidth : Int
  sizes : List Int
  stateBlob : List Int
  customized : Bool
deriving DecidableEq, Repr

/-- QHeaderView section resize modes. -/
inductive ResizeMode where
  | interactive
  | fixed
  | stretch
  | resizeToContents
deriving DecidableEq, Repr

/-- One header section: its resize mode, current size, and
sectionSizeHint. -/
structure HeaderColumn where
  resizeMode : ResizeMode
  size : Int
  sizeHint : Int
deriving DecidableEq, Repr

/-- QHeaderView as the manager sees it.  viewWidth/viewHeight are the
extent of the owning QAbstractItemView found by walking up the parent
chain (headerView, uistatemanager.cpp:47-55); header->count() is
columns.length. -/
structure Header where
  objectName : String
  orientation : Orientation
  viewWidth : Int
  viewHeight : Int
  columns : List HeaderColumn
  stateBlob : List Int
  customized : Bool
deriving DecidableEq, Repr

/-- UIStateManager::widgetStateKey: "(name)State". -/
def widgetStateKey (name : String) : String := name ++ "State"

/-- UIStateManager::widgetGeometryKey: "(name)Geometry". -/
def widgetGeometryKey (name : String) : String := name ++ "Geometry"

/-- UIStateManager::checkWidget: a widget takes part in persistence only
when its object name is non-empty (uistatemanager.cpp:249-257). -/
def checkWidget (name : String) : Bool := name ≠ ""

/-- distributeSpace (uistatemanager.cpp:57-76): collect the positions
holding -1, sum the rest, and replace every -1 entry by
(size - usedSpace - count*handleSize - handleSize) / number-of-wildcards.
When no entry is -1 the list is unchanged. -/
def distributeSpace (sizes : List Int) (size : Int) (handleSize : Int) : List Int :=
  let usedSpace := (sizes.filter (fun s => s ≠ -1)).sum
  let wildcardCount := (sizes.filter (fun s => s = -1)).length
  if wildcardCount = 0 then sizes
  else
    let freeSpace := size - usedSpace - ((sizes.length : Int) * handleSize) - handleSize
    let space := Int.tdiv freeSpace (wildcardCount : Int)
    sizes.map (fun s => if s = -1 then space else s)

/-- Width for a horizontal splitter, height for a vertical one
(uistatemanager.cpp:326-329, 339). -/
def splitterExtent (sp : Splitter) : Int :=
  match sp.orientation with
  | .horizontal => sp.width
  | .vertical => sp.height

/-- Resolution of one default-size entry for a splitter
(uistatemanager.cpp:315-337): pixels pass through; a percent string is
parsed, -1 passes through as the wildcard marker, and any other percent
is taken of the splitter's extent with C++ integer division. -/
def resolveSplitterSize (sp : Splitter) (e : UISize) : Int :=
  match e with
  | .px n => n
  | .percent v =>
    if v = -1 then v
    else
      match sp.orientation with
      | .horizontal => Int.tdiv (sp.width * v) 100
      | .vertical => Int.tdiv (sp.height * v) 100

/-- UIStateManager::restoreSplitterState, body of the loop for one
splitter (uistatemanager.cpp:296-350).  Widgets failing checkWidget are
skipped.  When the persisted blob is empty and a default-size vector is
registered, the Q_ASSERT on the vector length fires (none) unless it
equals the pane count, then the resolved sizes are distributed and
applied.  When a blob exists and no programmatic resize is in flight it
is applied verbatim and the splitter is marked customized. -/
def restoreSplitterState1 (settings : Store) (defaults : UIDefaults)
    (resizing : Bool) (sp : Splitter) : Option Splitter :=
  if ¬ checkWidget sp.objectName then some sp
  else
    let state := settings.value (widgetStateKey sp.objectName)
    if state = [] then
      let ds := lookupSizes defaults sp.objectName
      if ds = [] then some sp
      else if ds.length = sp.sizes.length then
        let resolved := ds.map (resolveSplitterSize sp)
        some { sp with sizes := distributeSpace resolved (splitterExtent sp) sp.handleWidth }
      else none
    else
      if ¬ resizing then some { sp with stateBlob := state, customized := true }
      else some sp

/-- UIStateManager::saveSplitterState, body of the loop for one splitter
(uistatemanager.cpp:352-362): skipped unless it passes checkWidget and
its "customized" property is true; otherwise its saveState blob is
written under its state key.  Also returns the list of keys written. -/
def saveSplitterState1 (settings : Store) (sp : Splitter) : Store × List String :=
  if ¬ checkWidget sp.objectName ∨ sp.customized = false then (settings, [])
  else
    (settings.setValue (widgetStateKey sp.objectName) sp.stateBlob,
     [widgetStateKey sp.objectName])

/-- Resolution of one default-size entry for a header
(uistatemanager.cpp:386-407): pixels pass through; a percent string is
parsed, -1 is left as the size-hint marker, and any other percent is
taken of the owning view's extent with C++ integer division. -/
def resolveHeaderSize (h : Header) (e : UISize) : Int :=
  match e with
  | .px n => n
  | .percent v =>
    if v = -1 then v
    else
      match h.orientation with
      | .horizontal => Int.tdiv (h.viewWidth * v) 100
      | .vertical => Int.tdiv (h.viewHeight * v) 100

/-- Application of one resolved default size to one header section
(uistatemanager.cpp:409-421): only Interactive and Fixed sections are
resized, to the resolved size, or to the section size hint when the
resolved size is -1; sections in any other resize mode are untouched. -/
def applyHeaderDefault (c : HeaderColumn) (size : Int) : HeaderColumn :=
  match c.resizeMode with
  | .interactive => { c with size := if size = -1 then c.sizeHint else size }
  | .fixed => { c with size := if size = -1 then c.sizeHint else size }
  | _ => c

/-- UIStateManager::restoreHeaderState, body of the loop for one header
(uistatemanager.cpp:364-433).  Headers failing checkWidget or with zero
sections are skipped before any settings access.  Otherwise the
persisted blob is read; when it is empty and a default-size vector is
registered, the Q_ASSERT on the vector length fires (none) unless it
equals the section count, then each resolved size is applied per
section through applyHeaderDefault.  When a blob exists and no
programmatic resize is in flight it is applied verbatim and the header
is marked customized.  The second component lists the settings keys
read. -/
def restoreHeaderState1 (settings : Store) (defaults : UIDefaults)
    (resizing : Bool) (h : Header) : Option (Header × List String) :=
  if ¬ checkWidget h.objectName ∨ h.columns.length = 0 then some (h, [])
  else
    let key := widgetStateKey h.objectName
    let state := settings.value key
    if state = [] then
      let ds := lookupSizes defaults h.objectName
      if ds = [] then some (h, [key])
      else if ds.length = h.columns.length then
        let resolved := ds.map (resolveHeaderSize h)
        some ({ h with
                 columns := (h.columns.zip resolved).map
                   (fun p => applyHeaderDefault p.1 p.2) }, [key])
      else none
    else
      if ¬ resizing then some ({ h with stateBlob := state, customized := true }, [key])
      else some (h, [key])

/-- UIStateManager::saveHeaderState, body of the loop for one header
(uistatemanager.cpp:435-445): skipped unless it passes checkWidget, has
at least one section and its "customized" property is true; otherwise
its saveState blob is written under its state key.  Also returns the
list of keys written. -/
def saveHeaderState1 (settings : Store) (h : Header) : Store × List String :=
  if ¬ checkWidget h.objectName ∨ h.columns.length = 0 ∨ h.customized = false then
    (settings, [])
  else
    (settings.setValue (widgetStateKey h.objectName) h.stateBlob,
     [widgetStateKey h.objectName])

/-- The foreach loop of UIStateManager::restoreSplitterState over all
splitters under the root. -/
def restoreSplitterList (settings : Store) (defaults : UIDefaults)
    (resizing : Bool) : List Splitter → Option (List Splitter)
  | [] => some []
  | sp :: rest => do
    let sp2 ← restoreSplitterState1 settings defaults resizing sp
    let rest2 ← restoreSplitterList settings defaults resizing rest
    pure (sp2 :: rest2)

/-- The foreach loop of UIStateManager::restoreHeaderState over all
headers under the root. -/
def restoreHeaderList (settings : Store) (defaults : UIDefaults)
    (resizing : Bool) : List Header → Option (List Header)
  | [] => some []
  | h :: rest => do
    let p ← restoreHeaderState1 settings defaults resizing h
    let rest2 ← restoreHeaderList settings defaults resizing rest
    pure (p.1 :: rest2)

/-- Restoration of only the headers below one resized view
(uistatemanager.cpp:460-462): headers whose name is among the view's
children are re-restored, the rest are untouched. -/
def restoreHeadersNamed (settings : Store) (defaults : UIDefaults)
    (resizing : Bool) (names : List String) : List Header → Option (List Header)
  | [] => some []
  | h :: rest => do
    let h2 ← if names.contains h.objectName
      then (restoreHeaderState1 settings defaults resizing h).map (fun p => p.1)
      else some h
    let rest2 ← restoreHeadersNamed settings defaults resizing names rest
    pure (h2 :: rest2)

/-- The foreach loop of UIStateManager::saveSplitterState over all
splitters, threading the settings store and collecting written keys. -/
def saveSplitterList (settings : Store) : List Splitter → Store × List String
  | [] => (settings, [])
  | sp :: rest =>
    let p1 := saveSplitterState1 settings sp
    let p2 := saveSplitterList p1.1 rest
    (p2.1, p1.2 ++ p2.2)

/-- The foreach loop of UIStateManager::saveHeaderState over all
headers, threading the settings store and collecting written keys. -/
def saveHeaderList (settings : Store) : List Header → Store × List String
  | [] => (settings, [])
  | h :: rest =>
    let p1 := saveHeaderState1 settings h
    let p2 := saveHeaderList p1.1 rest
    (p2.1, p1.2 ++ p2.2)

/-- UIStateManager as a state: the root widget's name, whether it is a
QMainWindow, its current geometry blob and window-state blob, the
splitters and headers found under it, the registered default sizes, the
settings store restricted to the manager's group, the m_initialized and
m_resizing flags, and the widget names whose customization signals were
connected during setup (uistatemanager.cpp:82-91 and the fields of
uistatemanager.h). -/
structure Manager where
  rootName : String
  rootIsMainWindow : Bool
  rootGeometry : List Int
  rootWindowState : List Int
  splitters : List Splitter
  headers : List Header
  defaultSplitterSizes : UIDefaults
  defaultHeaderSizes : UIDefaults
  settings : Store
  initialized : Bool
  resizing : Bool
  connectedSplitters : List String
  connectedHeaders : List String
deriving DecidableEq

/-- Opaque stand-in for the 1024x768 rectangle centered on the screen
under the cursor that restoreWindowState builds when no geometry was
persisted (uistatemanager.cpp:273-276); the actual desktop geometry is
outside the embedding. -/
def centeredDefaultGeometry : List Int := [1024, 768]

/-- UIStateManager::restoreWindowState (uistatemanager.cpp:264-284):
only for a QMainWindow root; with no persisted geometry a default rect
is applied, otherwise geometry and window state are restored verbatim
unless a programmatic resize is in flight. -/
def restoreWindowState (m : Manager) : Manager :=
  if m.rootIsMainWindow then
    let geometry := m.settings.value (widgetGeometryKey m.rootName)
    let state := m.settings.value (widgetStateKey m.rootName)
    if geometry = [] then { m with rootGeometry := centeredDefaultGeometry }
    else if ¬ m.resizing then { m with rootGeometry := geometry, rootWindowState := state }
    else m
  else m

/-- UIStateManager::saveWindowState (uistatemanager.cpp:286-294): only
for a QMainWindow root; writes the geometry and window-state blobs.
The second component lists the keys written. -/
def saveWindowState1 (settings : Store) (rootName : String)
    (isMainWindow : Bool) (geometry stateBlob : List Int) : Store × List String :=
  if isMainWindow then
    ((settings.setValue (widgetGeometryKey rootName) geometry).setValue
       (widgetStateKey rootName) stateBlob,
     [widgetGeometryKey rootName, widgetStateKey rootName])
  else (settings, [])

/-- UIStateManager::restoreState (uistatemanager.cpp:165-170): window,
then all splitters, then all headers. -/
def restoreState (m : Manager) : Option Manager := do
  let m1 := restoreWindowState m
  let sps ← restoreSplitterList m1.settings m1.defaultSplitterSizes m1.resizing m1.splitters
  let hs ← restoreHeaderList m1.settings m1.defaultHeaderSizes m1.resizing m1.headers
  pure { m1 with splitters := sps, headers := hs }

/-- UIStateManager::saveState (uistatemanager.cpp:172-177): window, then
all splitters, then all headers; returns the updated manager and every
settings key written. -/
def saveState (m : Manager) : Manager × List String :=
  let p1 := saveWindowState1 m.settings m.rootName m.rootIsMainWindow
    m.rootGeometry m.rootWindowState
  let p2 := saveSplitterList p1.1 m.splitters
  let p3 := saveHeaderList p2.1 m.headers
  ({ m with settings := p3.1 }, p1.2 ++ p2.2 ++ p3.2)

/-- QString::toLower on an object name, embedded as per-character
lowercasing (structural, unlike String.toLower, so that concrete
executions reduce). -/
def lowerName (s : String) : String := ⟨s.data.map Char.toLower⟩

/-- The duplicate-name scan of UIStateManager::setup over one kind of
widget (uistatemanager.cpp:123-160): widgets with empty names are
skipped, a widget whose lower-cased name was already seen is skipped
with a warning, every other widget's lower-cased name is recorded and
its signals are connected.  Returns the grown known-name set and the
names of the connected widgets, in order. -/
def scanWidgets (known : List String) : List String → List String × List String
  | [] => (known, [])
  | n :: rest =>
    if ¬ checkWidget n then scanWidgets known rest
    else
      let l := lowerName n
      if known.contains l then scanWidgets known rest
      else
        let p := scanWidgets (l :: known) rest
        (p.1, n :: p.2)

/-- UIStateManager::setup (uistatemanager.cpp:107-163): bail out when
the root widget has no name; otherwise mark the manager initialized,
run the duplicate-name scan seeded with the root's lower-cased name
over the splitters and then the headers, and restore all state.
Entering the settings group is key-prefix bookkeeping only and is not
modelled. -/
def setup (m : Manager) : Option Manager :=
  if ¬ checkWidget m.rootName then some m
  else
    let p1 := scanWidgets [lowerName m.rootName] (m.splitters.map (fun sp => sp.objectName))
    let p2 := scanWidgets p1.1 (m.headers.map (fun h => h.objectName))
    restoreState { m with
      initialized := true
      connectedSplitters := p1.2
      connectedHeaders := p2.2 }

/-- UIStateManager::reset (uistatemanager.cpp:232-237): clear the
initialized flag, leave the settings group and run setup again (which
re-enters the same group); the settings contents are not touched. -/
def reset (m : Manager) : Option Manager :=
  setup { m with initialized := false }

/-- The target of a Resize notification reaching the event filter:
either the root widget itself, or one of the filtered item views, given
by the names of the headers below it. -/
inductive ResizeTarget where
  | root
  | view (headerNames : List String)
deriving DecidableEq, Repr

/-- UIStateManager::widgetResized (uistatemanager.cpp:452-464): with
m_resizing held true for the duration (Util::SetTempValue), a root
resize re-restores all splitter and header state, and a view resize
re-restores the headers below that view; the flag then returns to its
previous value. -/
def widgetResized (m : Manager) (t : ResizeTarget) : Option Manager := do
  let mg := { m with resizing := true }
  let m2 ← match t with
    | .root => do
        let sps ← restoreSplitterList mg.settings mg.defaultSplitterSizes mg.resizing mg.splitters
        let hs ← restoreHeaderList mg.settings mg.defaultHeaderSizes mg.resizing mg.headers
        pure { mg with splitters := sps, headers := hs }
    | .view names => do
        let hs ← restoreHeadersNamed mg.settings mg.defaultHeaderSizes mg.resizing names mg.headers
        pure { mg with headers := hs }
  pure { m2 with resizing := m.resizing }

/-- An event reaching UIStateManager::eventFilter: Hide and Show of the
root widget, or a Resize of the root or of a filtered view. -/
inductive UIEvent where
  | hide
  | show
  | resize (t : ResizeTarget)
deriving DecidableEq, Repr

/-- UIStateManager::eventFilter (uistatemanager.cpp:179-206): a Hide of
the root saves state when initialized; a Show of the root runs setup
when not yet initialized; a Resize reaches widgetResized only when the
manager is initialized and no programmatic resize is in flight.  The
boolean records whether widgetResized was invoked. -/
def eventFilterStep (m : Manager) (e : UIEvent) : Option (Manager × Bool) :=
  let m1 := match e with
    | .hide => if m.initialized then (saveState m).1 else m
    | _ => m
  let m2o := match e with
    | .show => if ¬ m1.initialized then setup m1 else some m1
    | _ => some m1
  match m2o with
  | none => none
  | some m2 =>
    match e with
    | .resize t =>
      if m2.initialized ∧ ¬ m2.resizing then
        (widgetResized m2 t).map (fun m3 => (m3, true))
      else some (m2, false)
    | _ => some (m2, false)

/-- A sequence of events folded through the event filter. -/
def runEvents (m : Manager) : List UIEvent → Option Manager
  | [] => some m
  | e :: rest => do
    let p ← eventFilterStep m e
    runEvents p.1 rest

/-- The layout-bearing part of a manager: everything except the settings
store and the bookkeeping flags. -/
def layoutOf (m : Manager) : List Splitter × List Header × List Int × List Int :=
  (m.splitters, m.headers, m.rootGeometry, m.rootWindowState)

/-- Reading back the key just written returns the blob just written. -/
theorem Store.value_setValue (s : Store) (k : String) (v : List Int) :
    (s.setValue k v).value k = v := by
  induction s with
  | nil => simp [Store.setValue, Store.value]
  | cons p rest ih =>
    obtain ⟨k2, v2⟩ := p
    by_cases h : k2 = k <;> simp [Store.setValue, Store.value, h, ih]

/-- Summing a list after replacing every -1 entry by a common value. -/
theorem sum_map_replace (l : List Int) (v : Int) :
    (l.map (fun s => if s = -1 then v else s)).sum
      = (l.filter (fun s => s ≠ -1)).sum
        + ((l.filter (fun s => s = -1)).length : Int) * v := by
  induction l with
  | nil => simp
  | cons a t ih =>
    by_cases h : a = -1
    · simp only [List.map_cons, List.sum_cons, List.filter_cons, h, ih]
      simp
      ring
    · simp only [List.map_cons, List.sum_cons, List.filter_cons, h, ih]
      simp [h]
      ring

/-- C1: for a splitter with no persisted blob whose registered default
spec resolves to exactly one wildcard entry, restore assigns the
wildcard pane extent − sum(fixed) − (N+1)·handleWidth and the applied
sizes plus the (N+1) handle widths sum exactly to the splitter's
extent. -/
theorem c1_wildcard_space (settings : Store) (defaults : UIDefaults)
    (resizing : Bool) (sp : Splitter) (spec : List UISize)
    (hname : sp.objectName ≠ "")
    (hstate : settings.value (widgetStateKey sp.objectName) = [])
    (hspec : lookupSizes defaults sp.objectName = spec)
    (hne : spec ≠ [])
    (hlen : spec.length = sp.sizes.length)
    (hwild : (((spec.map (resolveSplitterSize sp)).filter (fun s => s = -1)).length) = 1) :
    (restoreSplitterState1 settings defaults resizing sp).map (fun sp2 => sp2.sizes)
      = some ((spec.map (resolveSplitterSize sp)).map
          (fun s => if s = -1 then
              splitterExtent sp
                - ((spec.map (resolveSplitterSize sp)).filter (fun s => s ≠ -1)).sum
                - ((sp.sizes.length : Int) + 1) * sp.handleWidth
            else s))
    ∧ (restoreSplitterState1 settings defaults resizing sp).map
        (fun sp2 => sp2.sizes.sum + ((sp.sizes.length : Int) + 1) * sp.handleWidth)
      = some (splitterExtent sp) := by
  have hck : checkWidget sp.objectName = true := by
    simp [checkWidget, hname]
  have hmain : restoreSplitterState1 settings defaults resizing sp
      = some { sp with sizes := (distributeSpace (spec.map (resolveSplitterSize sp))
                 (splitterExtent sp) sp.handleWidth) } := by
    rw [restoreSplitterState1]
    simp only [hck, hstate, hspec, hlen]
    simp [hne]
  have hdist : distributeSpace (spec.map (resolveSplitterSize sp))
      (splitterExtent sp) sp.handleWidth
      = (spec.map (resolveSplitterSize sp)).map
          (fun s => if s = -1 then
              splitterExtent sp
                - ((spec.map (resolveSplitterSize sp)).filter (fun s => s ≠ -1)).sum
                - ((sp.sizes.length : Int) + 1) * sp.handleWidth
            else s) := by
    rw [distributeSpace]
    simp only [hwild]
    norm_num
    intro a ha
    by_cases h : resolveSplitterSize sp a = -1
    · simp only [h, if_true]
      rw [← hlen]
      ring_nf
    · simp [h]
  constructor
  · rw [hmain, hdist]
    rfl
  · rw [hmain, hdist]
    have hs := sum_map_replace (spec.map (resolveSplitterSize sp))
      (splitterExtent sp
        - ((spec.map (resolveSplitterSize sp)).filter (fun s => s ≠ -1)).sum
        - ((sp.sizes.length : Int) + 1) * sp.handleWidth)
    simp only [Option.map_some']
    rw [hs, hwild]
    push_cast
    ring_nf

/-- Witness for c1_wildcard_space: a horizontal splitter of width 100
with handle width 2 and default spec [20px, wildcard, 30px] gets pane
sizes [20, 42, 30], whose sum plus 4 handle widths is 100. -/
theorem c1_wildcard_space_witness :
    (restoreSplitterState1 [] [("s", [UISize.px 20, UISize.px (-1), UISize.px 30])] false
        ⟨"s", Orientation.horizontal, 100, 50, 2, [1, 1, 1], [], false⟩).map
        (fun sp2 => sp2.sizes) = some [20, 42, 30] := by
  have h := c1_wildcard_space [] [("s", [UISize.px 20, UISize.px (-1), UISize.px 30])] false
    ⟨"s", Orientation.horizontal, 100, 50, 2, [1, 1, 1], [], false⟩
    [UISize.px 20, UISize.px (-1), UISize.px 30]
    (by decide) (by rfl) (by rfl) (by decide) (by decide) (by decide)
  exact h.1.trans (by decide)

/-- Restoring a splitter reads the settings only through Store.value. -/
theorem restoreSplitterState1_congr (s1 s2 : Store) (d : UIDefaults) (r : Bool)
    (sp : Splitter) (hs : ∀ k, s1.value k = s2.value k) :
    restoreSplitterState1 s1 d r sp = restoreSplitterState1 s2 d r sp := by
  rw [restoreSplitterState1, restoreSplitterState1, hs]

/-- Restoring a splitter list reads the settings only through
Store.value. -/
theorem restoreSplitterList_congr (s1 s2 : Store) (d : UIDefaults) (r : Bool)
    (l : List Splitter) (hs : ∀ k, s1.value k = s2.value k) :
    restoreSplitterList s1 d r l = restoreSplitterList s2 d r l := by
  induction l with
  | nil => rfl
  | cons sp rest ih =>
    rw [restoreSplitterList, restoreSplitterList,
      restoreSplitterState1_congr s1 s2 d r sp hs, ih]

/-- Restoring a header reads the settings only through Store.value. -/
theorem restoreHeaderState1_congr (s1 s2 : Store) (d : UIDefaults) (r : Bool)
    (h : Header) (hs : ∀ k, s1.value k = s2.value k) :
    restoreHeaderState1 s1 d r h = restoreHeaderState1 s2 d r h := by
  simp only [restoreHeaderState1, hs]

/-- Restoring a header list reads the settings only through
Store.value. -/
theorem restoreHeaderList_congr (s1 s2 : Store) (d : UIDefaults) (r : Bool)
    (l : List Header) (hs : ∀ k, s1.value k = s2.value k) :
    restoreHeaderList s1 d r l = restoreHeaderList s2 d r l := by
  induction l with
  | nil => rfl
  | cons h rest ih =>
    rw [restoreHeaderList, restoreHeaderList,
      restoreHeaderState1_congr s1 s2 d r h hs, ih]

/-- Window restore commutes with replacing the settings by a
value-equivalent store. -/
theorem restoreWindowState_congr (m : Manager) (s2 : Store)
    (hs : ∀ k, m.settings.value k = s2.value k) :
    restoreWindowState { m with settings := s2 }
      = { restoreWindowState m with settings := s2 } := by
  unfold restoreWindowState
  simp only
  rw [← hs, ← hs]
  split_ifs <;> rfl

/-- Full state restore commutes with replacing the settings by a
value-equivalent store. -/
theorem restoreState_congr (m : Manager) (s2 : Store)
    (hs : ∀ k, m.settings.value k = s2.value k) :
    restoreState { m with settings := s2 }
      = (restoreState m).map (fun m2 => { m2 with settings := s2 }) := by
  have hwf : (restoreWindowState m).settings = m.settings := by
    simp only [restoreWindowState]
    split_ifs <;> rfl
  unfold restoreState
  rw [restoreWindowState_congr m s2 hs]
  simp only
  rw [← restoreSplitterList_congr (restoreWindowState m).settings s2 _ _ _
      (fun k => by rw [hwf, hs])]
  rw [← restoreHeaderList_congr (restoreWindowState m).settings s2 _ _ _
      (fun k => by rw [hwf, hs])]
  cases restoreSplitterList (restoreWindowState m).settings
      (restoreWindowState m).defaultSplitterSizes (restoreWindowState m).resizing
      (restoreWindowState m).splitters with
  | none => rfl
  | some sps =>
    cases restoreHeaderList (restoreWindowState m).settings
        (restoreWindowState m).defaultHeaderSizes (restoreWindowState m).resizing
        (restoreWindowState m).headers with
    | none => rfl
    | some hs2 => rfl

/-- Splitter of the c2 counterexample: two panes, never customized. -/
def c2Splitter : Splitter :=
  ⟨"s", Orientation.horizontal, 100, 50, 2, [50, 50], [], false⟩

/-- Manager of the c2 counterexample: an initialized manager whose
store still holds a persisted blob [7] for the splitter "s", which also
has a registered default spec. -/
def c2Manager : Manager :=
  ⟨"w", false, [], [], [c2Splitter], [], [("s", [UISize.px 30, UISize.px (-1)])],
   [], [(widgetStateKey "s", [7])], true, false, ["s"], []⟩

/-- Counterexample to C2: reset() leaves the persisted blob in the
store (nothing is cleared) and the layout it produces — the persisted
blob applied, splitter marked customized — differs from the layout of a
first-ever run with no persisted state, which applies the default sizes
[30, 64] and leaves the splitter uncustomized. -/
theorem c2_reset_counterexample :
    (reset c2Manager).map (fun m => m.settings.value (widgetStateKey "s")) = some [7]
    ∧ (reset c2Manager).map layoutOf
        ≠ (setup { c2Manager with initialized := false, settings := [] }).map layoutOf := by
  constructor
  · rfl
  · decide

/-- Mapping the layout projection ignores a settings replacement. -/
theorem map_layout_settings (o : Option Manager) (s2 : Store) :
    (o.map (fun m2 => { m2 with settings := s2 })).map layoutOf = o.map layoutOf := by
  cases o <;> rfl

/-- Running setup over a value-equivalent settings store yields the
same layout. -/
theorem setup_settings_congr (m : Manager) (s2 : Store)
    (hs : ∀ k, m.settings.value k = s2.value k) :
    (setup { m with settings := s2 }).map layoutOf = (setup m).map layoutOf := by
  unfold setup
  by_cases hw : checkWidget m.rootName
  · simp only [hw, not_true, if_false]
    exact (congrArg (Option.map layoutOf)
      (restoreState_congr { m with
          initialized := true
          connectedSplitters := (scanWidgets [lowerName m.rootName]
            (m.splitters.map (fun sp : Splitter => sp.objectName))).2
          connectedHeaders := (scanWidgets
            (scanWidgets [lowerName m.rootName]
              (m.splitters.map (fun sp : Splitter => sp.objectName))).1
            (m.headers.map (fun h2 : Header => h2.objectName))).2 } s2
        (fun k => hs k))).trans (map_layout_settings _ s2)
  · simp only [hw, not_false_iff, if_true]
    rfl

/-- C2 amended: reset() re-runs setup against the unchanged persisted
store; when every key of that store reads back empty, reset() yields
the same layout as a first-ever run over an empty store. -/
theorem c2_reset_amended (m : Manager)
    (h : ∀ k, m.settings.value k = []) :
    (reset m).map layoutOf
      = (setup { m with initialized := false, settings := [] }).map layoutOf := by
  have h2 := setup_settings_congr { m with initialized := false } []
    (fun k => h k)
  exact h2.symm

/-- Witness for c2_reset_amended: over an empty store, reset and a
fresh first run agree. -/
theorem c2_reset_amended_witness :
    (reset { c2Manager with settings := [] }).map layoutOf
      = (setup { { c2Manager with settings := [] } with
          initialized := false, settings := [] }).map layoutOf :=
  c2_reset_amended { c2Manager with settings := [] } (fun _ => rfl)

/-- First splitter of the c3 counterexample. -/
def c3SplitterLower : Splitter :=
  ⟨"a", Orientation.horizontal, 100, 50, 2, [10, 10], [], false⟩

/-- Second splitter of the c3 counterexample: its name duplicates the
first one case-insensitively. -/
def c3SplitterUpper : Splitter :=
  ⟨"A", Orientation.horizontal, 100, 50, 2, [10, 10], [], false⟩

/-- Manager of the c3 counterexample: an uninitialized manager over two
case-insensitively duplicate splitters whose store holds a blob [5]
under the second splitter's key. -/
def c3Manager : Manager :=
  ⟨"w", false, [], [], [c3SplitterLower, c3SplitterUpper], [], [], [],
   [(widgetStateKey "A", [5])], false, false, [], []⟩

/-- Counterexample to C3: the two splitters are case-insensitive
duplicates, and while the later one is skipped for signal connection
during setup, it is still restored from the store (marked customized)
on Show, its key is still written by the save pass, and its key is
present in the store after the full show/hide save cycle. -/
theorem c3_duplicate_counterexample :
    c3Manager.splitters.map (fun sp => lowerName sp.objectName) = ["a", "a"]
    ∧ (runEvents c3Manager [UIEvent.show]).map
        (fun m => (m.connectedSplitters,
                   m.splitters.map (fun sp => sp.customized),
                   (saveState m).2.contains (widgetStateKey "A")))
        = some (["a"], [false, true], true)
    ∧ (runEvents c3Manager [UIEvent.show, UIEvent.hide]).map
        (fun m => m.settings.value (widgetStateKey "A")) = some [5] := by
  refine ⟨by decide, by decide, by decide⟩

/-- C3 amended: only a widget with an empty name is excluded from
saving and restoring (its key is never written and it is left
untouched); a duplicate-named widget is not excluded — a customized
splitter or non-empty customized header has its key written by the save
pass regardless of duplication, duplicates being skipped only for
signal connection during setup. -/
theorem c3_name_exclusion_amended :
    (∀ (settings : Store) (sp : Splitter), sp.objectName = "" →
      saveSplitterState1 settings sp = (settings, []))
    ∧ (∀ (settings : Store) (d : UIDefaults) (r : Bool) (sp : Splitter),
        sp.objectName = "" → restoreSplitterState1 settings d r sp = some sp)
    ∧ (∀ (settings : Store) (h : Header), h.objectName = "" →
        saveHeaderState1 settings h = (settings, []))
    ∧ (∀ (settings : Store) (d : UIDefaults) (r : Bool) (h : Header),
        h.objectName = "" → restoreHeaderState1 settings d r h = some (h, []))
    ∧ (∀ (settings : Store) (sp : Splitter), sp.objectName ≠ "" →
        sp.customized = true →
        saveSplitterState1 settings sp
          = (settings.setValue (widgetStateKey sp.objectName) sp.stateBlob,
             [widgetStateKey sp.objectName]))
    ∧ (∀ (settings : Store) (h : Header), h.objectName ≠ "" →
        h.columns.length ≠ 0 → h.customized = true →
        saveHeaderState1 settings h
          = (settings.setValue (widgetStateKey h.objectName) h.stateBlob,
             [widgetStateKey h.objectName])) := by
  refine ⟨?_, ?_, ?_, ?_, ?_, ?_⟩
  · intro settings sp h
    simp [saveSplitterState1, checkWidget, h]
  · intro settings d r sp h
    simp [restoreSplitterState1, checkWidget, h]
  · intro settings h hn
    simp [saveHeaderState1, checkWidget, hn]
  · intro settings d r h hn
    simp [restoreHeaderState1, checkWidget, hn]
  · intro settings sp hn hc
    simp [saveSplitterState1, checkWidget, hn, hc]
  · intro settings h hn hcols hc
    simp [saveHeaderState1, checkWidget, hn, hcols, hc]

/-- Witness for c3_name_exclusion_amended: an unnamed customized
splitter writes nothing; the duplicate-named customized splitter "A"
writes its blob under its key. -/
theorem c3_name_exclusion_amended_witness :
    saveSplitterState1 [] ⟨"", Orientation.horizontal, 0, 0, 0, [], [3], true⟩ = ([], [])
    ∧ saveSplitterState1 [] { c3SplitterUpper with customized := true, stateBlob := [3] }
        = ([(widgetStateKey "A", [3])], [widgetStateKey "A"]) := by
  constructor
  · exact c3_name_exclusion_amended.1 [] _ rfl
  · exact (c3_name_exclusion_amended.2.2.2.2.1 []
      { c3SplitterUpper with customized := true, stateBlob := [3] }
      (by decide) rfl).trans (by decide)

/-- The resizing guard of widgetResized is transient: whatever the
restores do, the flag returns to its pre-call value
(Util::SetTempValue, uistatemanager.cpp:454). -/
theorem widgetResized_resizing (m : Manager) (t : ResizeTarget) (m2 : Manager)
    (h : widgetResized m t = some m2) : m2.resizing = m.resizing := by
  unfold widgetResized at h
  cases t with
  | root =>
    simp only [Option.bind_eq_bind, Option.pure_def, Option.some_bind,
      Option.bind_eq_some, Option.some.injEq] at h
    obtain ⟨sps, hsps, hs2, hhs, h2⟩ := h
    subst h2
    rfl
  | view names =>
    simp only [Option.bind_eq_bind, Option.pure_def, Option.some_bind,
      Option.bind_eq_some, Option.some.injEq] at h
    obtain ⟨hs2, hhs, h2⟩ := h
    subst h2
    rfl

/-- C4: while a programmatic resize is in flight (m_resizing set), a
Resize event reaching the filter of an initialized manager does not
invoke the restore logic and leaves the manager unchanged; once the
guard is clear, a Resize event does invoke it, and the guard is clear
again afterwards. -/
theorem c4_reentrancy_guard (m : Manager) (t : ResizeTarget)
    (hinit : m.initialized = true) :
    (m.resizing = true →
      eventFilterStep m (UIEvent.resize t) = some (m, false))
    ∧ (m.resizing = false → ∀ m2 b,
        eventFilterStep m (UIEvent.resize t) = some (m2, b) →
        b = true ∧ m2.resizing = false) := by
  constructor
  · intro hr
    simp [eventFilterStep, hr]
  · intro hr m2 b hstep
    cases hwr : widgetResized m t with
    | none =>
      simp [eventFilterStep, hinit, hr, hwr] at hstep
    | some m3 =>
      simp [eventFilterStep, hinit, hr, hwr, Prod.ext_iff] at hstep
      obtain ⟨h1, h2⟩ := hstep
      subst h1
      subst h2
      exact ⟨rfl, (widgetResized_resizing m t _ hwr).trans hr⟩

/-- Manager of the c4 witness: initialized, with a programmatic resize
in flight. -/
def c4Manager : Manager :=
  ⟨"w", false, [], [], [], [], [], [], [], true, true, [], []⟩

/-- Witness for c4_reentrancy_guard: with the guard set a root Resize
is swallowed; with the guard clear it reaches widgetResized and the
guard is clear again afterwards. -/
theorem c4_reentrancy_guard_witness :
    eventFilterStep c4Manager (UIEvent.resize ResizeTarget.root) = some (c4Manager, false)
    ∧ (true = true ∧ ({ c4Manager with resizing := false } : Manager).resizing = false) := by
  constructor
  · exact (c4_reentrancy_guard c4Manager ResizeTarget.root rfl).1 rfl
  · exact (c4_reentrancy_guard { c4Manager with resizing := false }
      ResizeTarget.root rfl).2 rfl
      { c4Manager with resizing := false } true (by decide)

/-- C5: the save pass writes a splitter or header only when its
"customized" property is set — an uncustomized widget leaves the store
untouched and writes no key — and applying a default-size spec during
restore never sets the customized flag, so a widget only ever laid out
by defaults is never saved. -/
theorem c5_only_customized_saved :
    (∀ (settings : Store) (sp : Splitter), sp.customized = false →
      saveSplitterState1 settings sp = (settings, []))
    ∧ (∀ (settings : Store) (h : Header), h.customized = false →
      saveHeaderState1 settings h = (settings, []))
    ∧ (∀ (settings : Store) (d : UIDefaults) (r : Bool) (sp sp2 : Splitter),
        sp.customized = false →
        settings.value (widgetStateKey sp.objectName) = [] →
        restoreSplitterState1 settings d r sp = some sp2 →
        sp2.customized = false)
    ∧ (∀ (settings : Store) (d : UIDefaults) (r : Bool) (h : Header)
        (p : Header × List String),
        h.customized = false →
        settings.value (widgetStateKey h.objectName) = [] →
        restoreHeaderState1 settings d r h = some p →
        p.1.customized = false) := by
  refine ⟨?_, ?_, ?_, ?_⟩
  · intro settings sp hc
    simp [saveSplitterState1, hc]
  · intro settings h hc
    simp [saveHeaderState1, hc]
  · intro settings d r sp sp2 hc hs hres
    simp only [restoreSplitterState1, hs] at hres
    split_ifs at hres with h1 h2 h3 <;>
      simp only [Option.some.injEq, reduceCtorEq] at hres <;>
      subst hres <;>
      exact hc
  · intro settings d r h p hc hs hres
    simp only [restoreHeaderState1, hs] at hres
    split_ifs at hres with h1 h2 h3 <;>
      simp only [Option.some.injEq, reduceCtorEq] at hres <;>
      subst hres <;>
      exact hc

/-- Witness for c5_only_customized_saved: an uncustomized splitter and
header write nothing, and a default-application restore leaves a
splitter uncustomized. -/
theorem c5_only_customized_saved_witness :
    saveSplitterState1 [] c2Splitter = ([], [])
    ∧ saveHeaderState1 [] ⟨"h", Orientation.horizontal, 100, 50,
        [⟨ResizeMode.interactive, 10, 5⟩], [], false⟩ = ([], [])
    ∧ ({ c2Splitter with sizes := [30, 64] } : Splitter).customized = false := by
  refine ⟨c5_only_customized_saved.1 [] c2Splitter rfl,
    c5_only_customized_saved.2.1 [] _ rfl,
    c5_only_customized_saved.2.2.1 [] [("s", [UISize.px 30, UISize.px (-1)])]
      false c2Splitter { c2Splitter with sizes := [30, 64] } rfl rfl (by decide)⟩

/-- C6: saving a customized splitter and then restoring against the
resulting store round-trips the serialized blob bit-identically: the
store read returns exactly the blob written, and the restore installs
that blob verbatim and marks the splitter customized. -/
theorem c6_save_restore_roundtrip (settings : Store) (d : UIDefaults) (sp : Splitter)
    (hname : sp.objectName ≠ "") (hc : sp.customized = true)
    (hblob : sp.stateBlob ≠ []) :
    (saveSplitterState1 settings sp).1.value (widgetStateKey sp.objectName) = sp.stateBlob
    ∧ ∀ sp2 : Splitter, sp2.objectName = sp.objectName →
        restoreSplitterState1 (saveSplitterState1 settings sp).1 d false sp2
          = some { sp2 with stateBlob := sp.stateBlob, customized := true } := by
  have hck : checkWidget sp.objectName = true := by
    simp [checkWidget, hname]
  have hsave : (saveSplitterState1 settings sp).1
      = settings.setValue (widgetStateKey sp.objectName) sp.stateBlob := by
    simp [saveSplitterState1, hck, hc]
  constructor
  · rw [hsave, Store.value_setValue]
  · intro sp2 hn2
    have hck2 : checkWidget sp2.objectName = true := by
      simp [checkWidget, hn2, hname]
    rw [restoreSplitterState1]
    simp only [hck2, not_true, if_false, hsave, hn2, Store.value_setValue]
    simp [hblob, hck]

/-- Witness for c6_save_restore_roundtrip: a customized splitter with
blob [9] saves it and restores it bit-identically. -/
theorem c6_save_restore_roundtrip_witness :
    (saveSplitterState1 [] { c2Splitter with customized := true, stateBlob := [9] }).1.value
        (widgetStateKey "s") = [9]
    ∧ restoreSplitterState1
        (saveSplitterState1 [] { c2Splitter with customized := true, stateBlob := [9] }).1
        [] false c2Splitter
        = some { c2Splitter with stateBlob := [9], customized := true } := by
  have h := c6_save_restore_roundtrip []
    [] { c2Splitter with customized := true, stateBlob := [9] }
    (by decide) rfl (by decide)
  exact ⟨h.1, h.2 c2Splitter rfl⟩

/-- A section whose resize mode is neither Interactive nor Fixed is
untouched by applyHeaderDefault. -/
theorem applyHeaderDefault_other (c : HeaderColumn) (s : Int)
    (h1 : c.resizeMode ≠ ResizeMode.interactive)
    (h2 : c.resizeMode ≠ ResizeMode.fixed) : applyHeaderDefault c s = c := by
  cases hm : c.resizeMode <;> simp_all [applyHeaderDefault]

/-- C7: restoring a header with no persisted state against a registered
default spec of matching length applies the resolved default size per
column through applyHeaderDefault — so a column whose resize mode is
Interactive or Fixed is resized, and every column in any other resize
mode is returned unchanged. -/
theorem c7_header_defaults_modes (settings : Store) (d : UIDefaults)
    (r : Bool) (h : Header) (ds : List UISize)
    (hname : h.objectName ≠ "") (hcols : h.columns.length ≠ 0)
    (hstate : settings.value (widgetStateKey h.objectName) = [])
    (hds : lookupSizes d h.objectName = ds) (hne : ds ≠ [])
    (hlen : ds.length = h.columns.length) :
    ∃ h2, restoreHeaderState1 settings d r h
        = some (h2, [widgetStateKey h.objectName])
      ∧ (∀ (i : Nat) (c : HeaderColumn) (e : UISize),
          h.columns[i]? = some c → ds[i]? = some e →
          h2.columns[i]? = some (applyHeaderDefault c (resolveHeaderSize h e)))
      ∧ (∀ (i : Nat) (c : HeaderColumn), h.columns[i]? = some c →
          c.resizeMode ≠ ResizeMode.interactive →
          c.resizeMode ≠ ResizeMode.fixed →
          h2.columns[i]? = some c) := by
  have hck : checkWidget h.objectName = true := by
    simp [checkWidget, hname]
  have hmain : restoreHeaderState1 settings d r h
      = some ({ h with
          columns := ((h.columns.zip (ds.map (resolveHeaderSize h))).map
            (fun p => applyHeaderDefault p.1 p.2)) }, [widgetStateKey h.objectName]) := by
    rw [restoreHeaderState1]
    simp only [hck, hstate, hds, hlen]
    simp [hne, hcols]
  have hpoint : ∀ (i : Nat) (c : HeaderColumn) (e : UISize),
      h.columns[i]? = some c → ds[i]? = some e →
      ((h.columns.zip (ds.map (resolveHeaderSize h))).map
        (fun p => applyHeaderDefault p.1 p.2))[i]?
        = some (applyHeaderDefault c (resolveHeaderSize h e)) := by
    intro i c e hc he
    have hz : (h.columns.zip (ds.map (resolveHeaderSize h)))[i]?
        = some (c, resolveHeaderSize h e) := by
      rw [List.getElem?_zip_eq_some]
      exact ⟨hc, by rw [List.getElem?_map, he]; rfl⟩
    rw [List.getElem?_map, hz]
    rfl
  refine ⟨_, hmain, ?_, ?_⟩
  · intro i c e hc he
    exact hpoint i c e hc he
  · intro i c hc h1 h2
    have hi : i < h.columns.length := by
      rcases List.getElem?_eq_some.mp hc with ⟨hlt, _⟩
      exact hlt
    have hid : i < ds.length := by omega
    have he := List.getElem?_eq_getElem hid
    have happ := hpoint i c (ds.get ⟨i, hid⟩) hc he
    rw [applyHeaderDefault_other c _ h1 h2] at happ
    exact happ

/-- Header of the c7 witness: one interactive column of size 10, one
stretch column of size 13. -/
def c7Header : Header :=
  ⟨"h", Orientation.horizontal, 100, 50,
   [⟨ResizeMode.interactive, 10, 5⟩, ⟨ResizeMode.stretch, 13, 5⟩], [], false⟩

/-- Witness for c7_header_defaults_modes: with defaults [40px, 60px]
the interactive column is resized to 40 while the stretch column keeps
its size 13. -/
theorem c7_header_defaults_modes_witness :
    (∃ h2, restoreHeaderState1 [] [("h", [UISize.px 40, UISize.px 60])] false c7Header
        = some (h2, [widgetStateKey "h"])
      ∧ (∀ (i : Nat) (c : HeaderColumn) (e : UISize), c7Header.columns[i]? = some c →
          ([UISize.px 40, UISize.px 60] : List UISize)[i]? = some e →
          h2.columns[i]? = some (applyHeaderDefault c (resolveHeaderSize c7Header e)))
      ∧ (∀ (i : Nat) (c : HeaderColumn), c7Header.columns[i]? = some c →
          c.resizeMode ≠ ResizeMode.interactive →
          c.resizeMode ≠ ResizeMode.fixed →
          h2.columns[i]? = some c))
    ∧ (restoreHeaderState1 [] [("h", [UISize.px 40, UISize.px 60])] false
        c7Header).map (fun p => p.1.columns.map (fun c => c.size))
      = some [40, 13] :=
  ⟨c7_header_defaults_modes [] [("h", [UISize.px 40, UISize.px 60])] false c7Header
    [UISize.px 40, UISize.px 60]
    (by decide) (by decide) rfl rfl (by decide) (by decide),
   by decide⟩


/-- C8: a header with zero sections is skipped before any settings
access: restore returns it unchanged having read no key, and save
returns the store unchanged having written no key. -/
theorem c8_zero_column_header (settings : Store) (d : UIDefaults) (r : Bool)
    (h : Header) (hz : h.columns = []) :
    restoreHeaderState1 settings d r h = some (h, [])
    ∧ saveHeaderState1 settings h = (settings, []) := by
  constructor
  · simp [restoreHeaderState1, hz]
  · simp [saveHeaderState1, hz]

/-- Zero-column header of the c8 witness; even customized and with a
registered default it is never looked at. -/
def c8Header : Header :=
  ⟨"h", Orientation.horizontal, 100, 50, [], [7], true⟩

/-- Witness for c8_zero_column_header. -/
theorem c8_zero_column_header_witness :
    restoreHeaderState1 [(widgetStateKey "h", [5])] [("h", [UISize.px 10])] false c8Header
      = some (c8Header, [])
    ∧ saveHeaderState1 [(widgetStateKey "h", [5])] c8Header
      = ([(widgetStateKey "h", [5])], []) :=
  c8_zero_column_header [(widgetStateKey "h", [5])] [("h", [UISize.px 10])] false
    c8Header rfl

/-- C9: for a named splitter (or named non-empty header) with no
persisted blob and a registered default spec, the restore succeeds if
and only if the spec's length equals the pane/column count — a mismatch
makes the Q_ASSERT fire (modelled as none), it is never a recovered
runtime condition. -/
theorem c9_spec_length_assertion :
    (∀ (settings : Store) (d : UIDefaults) (r : Bool) (sp : Splitter),
      sp.objectName ≠ "" →
      settings.value (widgetStateKey sp.objectName) = [] →
      lookupSizes d sp.objectName ≠ [] →
      ((restoreSplitterState1 settings d r sp).isSome
        ↔ (lookupSizes d sp.objectName).length = sp.sizes.length))
    ∧ (∀ (settings : Store) (d : UIDefaults) (r : Bool) (h : Header),
      h.objectName ≠ "" → h.columns.length ≠ 0 →
      settings.value (widgetStateKey h.objectName) = [] →
      lookupSizes d h.objectName ≠ [] →
      ((restoreHeaderState1 settings d r h).isSome
        ↔ (lookupSizes d h.objectName).length = h.columns.length)) := by
  constructor
  · intro settings d r sp hname hstate hne
    have hck : checkWidget sp.objectName = true := by
      simp [checkWidget, hname]
    rw [restoreSplitterState1]
    simp only [hck, hstate]
    by_cases hl : (lookupSizes d sp.objectName).length = sp.sizes.length <;>
      simp [hl, hne]
  · intro settings d r h hname hcols hstate hne
    have hck : checkWidget h.objectName = true := by
      simp [checkWidget, hname]
    rw [restoreHeaderState1]
    simp only [hck, hstate]
    by_cases hl : (lookupSizes d h.objectName).length = h.columns.length <;>
      simp [hl, hne, hcols]

/-- Witness for c9_spec_length_assertion: a two-entry spec on the
two-pane splitter "s" restores (lengths match), and a one-entry spec on
the same splitter makes the assertion fire. -/
theorem c9_spec_length_assertion_witness :
    ((restoreSplitterState1 [] [("s", [UISize.px 1, UISize.px 2])] false c2Splitter).isSome
      ↔ (lookupSizes [("s", [UISize.px 1, UISize.px 2])] "s").length
          = c2Splitter.sizes.length)
    ∧ restoreSplitterState1 [] [("s", [UISize.px 1])] false c2Splitter = none :=
  ⟨c9_spec_length_assertion.1 [] [("s", [UISize.px 1, UISize.px 2])] false c2Splitter
    (by decide) rfl (by decide), by decide⟩

/-- C10: a manager whose root widget has no name never initializes:
every sequence of Show/Hide/Resize events leaves the manager — its
persisted store included — completely unchanged, so it neither restores
nor saves anything. -/
theorem c10_unnamed_root_inert (m : Manager) (hname : m.rootName = "")
    (hinit : m.initialized = false) :
    ∀ es : List UIEvent, runEvents m es = some m := by
  intro es
  induction es with
  | nil => rfl
  | cons e rest ih =>
    have hstep : eventFilterStep m e = some (m, false) := by
      cases e <;> simp [eventFilterStep, hinit, setup, checkWidget, hname]
    rw [runEvents, hstep]
    simpa using ih

/-- Manager of the c10 witness: unnamed root over a splitter, with a
non-empty persisted store. -/
def c10Manager : Manager :=
  ⟨"", false, [], [], [c3SplitterLower], [], [], [],
   [(widgetStateKey "a", [5])], false, false, [], []⟩

/-- Witness for c10_unnamed_root_inert: a show/hide/resize sequence
leaves the unnamed-root manager untouched. -/
theorem c10_unnamed_root_inert_witness :
    runEvents c10Manager
      [UIEvent.show, UIEvent.hide, UIEvent.resize ResizeTarget.root, UIEvent.show]
      = some c10Manager :=
  c10_unnamed_root_inert c10Manager rfl rfl _

end GammaRay